import Mathlib

/-!
Shallow embedding of the packet-transfer driver
(`src/inc/drv_pkttransfer.h`, implementation part).

Machine integers are modelled as `Nat`; `uint16_t` truncation is written
as an explicit `% 65536` where the C code performs a narrowing store, and
the 32-bit counters wrap with `% 4294967296`.  The caller-owned TX/RX
buffers are modelled as total functions `Nat → Nat` (the C arrays), and
every store is a `Function.update` at the written index.  The hardware
and application callbacks are modelled as oracle inputs to the task.
-/

-- ==================== constants from the source ====================

def PKTTRANSFER_FRAME_DELIMITER_BYTE : Nat := 0x7E

def PKTTRANSFER_FRAME_ESCAPE_BYTE : Nat := 0x7D

def PKTTRANSFER_FRAME_ENCODED_DELIMITER_BYTE : Nat := 0x5E

def PKTTRANSFER_FRAME_ENCODED_ESCAPE_BYTE : Nat := 0x5D

def PKTTRANSFER_FRAME_CRC_SIZE : Nat := 2

def PKTTRANSFER_CAN_MGS_SIZE : Nat := 8

def PKTTRANSFER_ERR_OK : Int := 0

def PKTTRANSFER_ERR_BASE : Int := 1024

def PKTTRANSFER_ERR_TX_OVF : Int := 1025

def u32wrap (n : Nat) : Nat := n % 4294967296

-- ==================== frame state ====================

inductive FrameState where
  | Delimiter
  | Byte
  | EncodedByte
deriving DecidableEq, Repr

-- ==================== driver state ====================

/-- The mutable part of a driver instance (`pkttransfer_state_t`) together
with the caller-owned TX/RX buffers reached through `pkttransfer_config_t`.
`payload_size_max` is passed separately to each operation, as the
configuration is immutable after `pkttransfer_init`. -/
structure PState where
  tx_state : FrameState
  tx_size : Nat
  sent_size : Nat
  rx_state : FrameState
  rx_size : Nat
  sof_detections_cnt : Nat
  received_packets_cnt : Nat
  sent_packets_cnt : Nat
  can_id_rx : Nat
  can_id_tx : Nat
  buf_tx : Nat → Nat
  buf_rx : Nat → Nat

/-- `pkttransfer_init`: `memset` zeroes the runtime state (0 is the
`PKTTRANSFER_STATE_DELIMITER` encoding); the caller-owned buffers keep
their previous contents `btx`, `brx`. -/
def pkttransfer_init (btx brx : Nat → Nat) : PState :=
  { tx_state := .Delimiter, tx_size := 0, sent_size := 0,
    rx_state := .Delimiter, rx_size := 0,
    sof_detections_cnt := 0, received_packets_cnt := 0, sent_packets_cnt := 0,
    can_id_rx := 0, can_id_tx := 0, buf_tx := btx, buf_rx := brx }

/-- first `n` cells of a buffer, as a list -/
def readBuf (f : Nat → Nat) (n : Nat) : List Nat :=
  (List.range n).map f

/-- `memcpy`-style sequential store of a list starting at index `i` -/
def writeList (f : Nat → Nat) (i : Nat) : List Nat → (Nat → Nat)
  | [] => f
  | b :: bs => writeList (Function.update f i b) (i + 1) bs

-- ==================== CRC engine ====================

/-- one iteration of the inner `for` loop of `pkttransfer_crc16` -/
def crc16_round (crc : Nat) : Nat :=
  if crc &&& 0x0001 = 1 then (crc >>> 1) ^^^ 0x8408 else crc >>> 1

/-- `n` iterations of the inner loop -/
def crc16_shift : Nat → Nat → Nat
  | 0, crc => crc
  | n + 1, crc => crc16_shift n (crc16_round crc)

/-- `pkttransfer_crc16`, transcribed from the source including the
`out[2]` reflection/xor/swap epilogue. -/
def pkttransfer_crc16 (data : List Nat) : Nat :=
  let xorout : Nat := 0xFFFF
  let crc := data.foldl (fun c b => crc16_shift 8 (c ^^^ (b &&& 0x00FF))) 0xFFFF
  let out0 := (crc &&& 0xFF00) >>> 8
  let out1 := crc &&& 0x00FF
  let out0 := out0 ^^^ (xorout &&& 0x00FF)
  let out1 := out1 ^^^ ((xorout &&& 0xFF00) >>> 8)
  let tmp := out0
  let out0 := out1
  let out1 := tmp
  ((out1 &&& 0x00FF) <<< 8) ||| out0

/-- Reference CRC-16/X-25, following the specification text: register
starts at `0xFFFF`, each input byte is XORed into the low byte, eight
LSB-conditional right-shift/XOR-`0x8408` steps per byte, final XOR with
`0xFFFF`. -/
def crc16_x25_step (crc : Nat) : Nat :=
  if crc &&& 1 = 1 then (crc >>> 1) ^^^ 0x8408 else crc >>> 1

def crc16_x25_byte (crc b : Nat) : Nat :=
  crc16_x25_step (crc16_x25_step (crc16_x25_step (crc16_x25_step
    (crc16_x25_step (crc16_x25_step (crc16_x25_step (crc16_x25_step
      (crc ^^^ (b &&& 0xFF)))))))))

def crc16_x25 (data : List Nat) : Nat :=
  (data.foldl crc16_x25_byte 0xFFFF) ^^^ 0xFFFF

-- ==================== encoder ====================

/-- `pkttransfer_bytes_for_sending` -/
def pkttransfer_bytes_for_sending (s : PState) : Bool :=
  s.tx_size != 0

/-- `pkttransfer_prepare_byte`: returns the updated state and the wire
byte handed to the hardware. -/
def pkttransfer_prepare_byte (s : PState) : PState × Nat :=
  if s.sent_size = s.tx_size then
    ({ s with sent_size := 0, tx_size := 0, tx_state := .Delimiter,
              sent_packets_cnt := u32wrap (s.sent_packets_cnt + 1) },
     PKTTRANSFER_FRAME_DELIMITER_BYTE)
  else
    let next_payload_byte := s.buf_tx s.sent_size
    match s.tx_state with
    | .Delimiter =>
        ({ s with tx_state := .Byte }, PKTTRANSFER_FRAME_DELIMITER_BYTE)
    | .Byte =>
        if next_payload_byte = PKTTRANSFER_FRAME_DELIMITER_BYTE ∨
           next_payload_byte = PKTTRANSFER_FRAME_ESCAPE_BYTE then
          ({ s with tx_state := .EncodedByte }, PKTTRANSFER_FRAME_ESCAPE_BYTE)
        else
          ({ s with sent_size := s.sent_size + 1 }, next_payload_byte)
    | .EncodedByte =>
        ({ s with sent_size := s.sent_size + 1, tx_state := .Byte },
         if next_payload_byte = PKTTRANSFER_FRAME_DELIMITER_BYTE then
           PKTTRANSFER_FRAME_ENCODED_DELIMITER_BYTE
         else
           PKTTRANSFER_FRAME_ENCODED_ESCAPE_BYTE)

-- ==================== decoder ====================

/-- `pkttransfer_process_frame`: CRC/size check of the buffered frame
body; the optional result is the payload handed to `app_pkt_cb`. -/
def pkttransfer_process_frame (s : PState) : PState × Option (List Nat) :=
  if s.rx_size ≤ PKTTRANSFER_FRAME_CRC_SIZE then
    (s, none)
  else
    let actual_crc :=
      (((s.buf_rx (s.rx_size - 1)) <<< 8) ||| (s.buf_rx (s.rx_size - 2))) % 65536
    let expected_crc :=
      pkttransfer_crc16 (readBuf s.buf_rx (s.rx_size - PKTTRANSFER_FRAME_CRC_SIZE))
    if actual_crc ≠ expected_crc then
      (s, none)
    else
      ({ s with received_packets_cnt := u32wrap (s.received_packets_cnt + 1) },
       some (readBuf s.buf_rx (s.rx_size - PKTTRANSFER_FRAME_CRC_SIZE)))

/-- `pkttransfer_process_byte` (`payload_size_max` abbreviated `pmax`):
consumes one wire byte; the optional result is a delivered payload. -/
def pkttransfer_process_byte (pmax : Nat) (s : PState) (byte : Nat) :
    PState × Option (List Nat) :=
  match s.rx_state with
  | .Delimiter =>
      if byte = PKTTRANSFER_FRAME_DELIMITER_BYTE then
        ({ s with sof_detections_cnt := u32wrap (s.sof_detections_cnt + 1),
                  rx_state := .Byte }, none)
      else
        (s, none)
  | .Byte =>
      if byte = PKTTRANSFER_FRAME_ESCAPE_BYTE then
        ({ s with rx_state := .EncodedByte }, none)
      else if byte = PKTTRANSFER_FRAME_DELIMITER_BYTE then
        let (s1, delivered) := pkttransfer_process_frame s
        ({ s1 with rx_size := 0, rx_state := .Delimiter }, delivered)
      else if pmax ≤ s.rx_size then
        ({ s with rx_size := 0, rx_state := .Delimiter }, none)
      else
        ({ s with buf_rx := Function.update s.buf_rx s.rx_size byte,
                  rx_size := s.rx_size + 1 }, none)
  | .EncodedByte =>
      if (byte ≠ PKTTRANSFER_FRAME_ENCODED_DELIMITER_BYTE ∧
          byte ≠ PKTTRANSFER_FRAME_ENCODED_ESCAPE_BYTE) ∨ pmax ≤ s.rx_size then
        ({ s with rx_size := 0, rx_state := .Delimiter }, none)
      else
        let b := if byte = PKTTRANSFER_FRAME_ENCODED_DELIMITER_BYTE then
                   PKTTRANSFER_FRAME_DELIMITER_BYTE
                 else
                   PKTTRANSFER_FRAME_ESCAPE_BYTE
        ({ s with buf_rx := Function.update s.buf_rx s.rx_size b,
                  rx_size := s.rx_size + 1, rx_state := .Byte }, none)

-- ==================== submit ====================

/-- `pkttransfer_send`, CAN build (extra `can_id_tx` argument). The
payload buffer/size pair of the C interface is modelled as the list of
the `size` bytes the caller supplies. -/
def pkttransfer_send (pmax : Nat) (s : PState) (payload : List Nat)
    (can_id_tx : Nat) : PState × Int :=
  if pmax < payload.length then
    (s, PKTTRANSFER_ERR_TX_OVF)
  else if s.tx_size ≠ 0 then
    (s, PKTTRANSFER_ERR_TX_OVF)
  else
    let buf := writeList s.buf_tx 0 payload
    let crc := pkttransfer_crc16 payload
    let buf := Function.update buf payload.length (crc &&& 0xFF)
    let buf := Function.update buf (payload.length + 1) ((crc >>> 8) % 256)
    ({ s with buf_tx := buf,
              tx_size := payload.length + PKTTRANSFER_FRAME_CRC_SIZE,
              sent_size := 0,
              can_id_tx := can_id_tx }, PKTTRANSFER_ERR_OK)

/-- `pkttransfer_send`, UART build (no CAN identifier). -/
def pkttransfer_send_uart (pmax : Nat) (s : PState) (payload : List Nat) :
    PState × Int :=
  if pmax < payload.length then
    (s, PKTTRANSFER_ERR_TX_OVF)
  else if s.tx_size ≠ 0 then
    (s, PKTTRANSFER_ERR_TX_OVF)
  else
    let buf := writeList s.buf_tx 0 payload
    let crc := pkttransfer_crc16 payload
    let buf := Function.update buf payload.length (crc &&& 0xFF)
    let buf := Function.update buf (payload.length + 1) ((crc >>> 8) % 256)
    ({ s with buf_tx := buf,
              tx_size := payload.length + PKTTRANSFER_FRAME_CRC_SIZE,
              sent_size := 0 }, PKTTRANSFER_ERR_OK)

/-- `pkttransfer_set_can_id_rx` -/
def pkttransfer_set_can_id_rx (s : PState) (can_id_rx : Nat) : PState :=
  { s with can_id_rx := can_id_rx }

-- ==================== task ====================

/-- `pkttransfer_task`, UART build.  `tx_avail`/`rx_ready` are the values
returned by the hardware predicates, `rx_byte` the byte returned by
`rx_cb` when polled.  Result: new state, bytes handed to `tx_cb`
(`[]` or one byte), and an optional payload delivered to the app. -/
def pkttransfer_task_uart (pmax : Nat) (s : PState)
    (tx_avail rx_ready : Bool) (rx_byte : Nat) :
    PState × List Nat × Option (List Nat) :=
  let (s1, out) :=
    if pkttransfer_bytes_for_sending s then
      if tx_avail then
        let (s', b) := pkttransfer_prepare_byte s
        (s', [b])
      else (s, [])
    else (s, [])
  if rx_ready then
    let (s2, delivered) := pkttransfer_process_byte pmax s1 rx_byte
    (s2, out, delivered)
  else
    (s1, out, none)

/-- the `for` loop of the CAN build of `pkttransfer_task`: drain up to
`fuel` bytes from the encoder, stopping after the byte that empties the
TX buffer. -/
def canDrain (fuel : Nat) (s : PState) : PState × List Nat :=
  match fuel with
  | 0 => (s, [])
  | fuel + 1 =>
      let (s', b) := pkttransfer_prepare_byte s
      if pkttransfer_bytes_for_sending s' then
        let (s'', bs) := canDrain fuel s'
        (s'', b :: bs)
      else
        (s', [b])

/-- fold the decoder over a list of received bytes, collecting deliveries -/
def decodeRun (pmax : Nat) (s : PState) : List Nat → PState × List (List Nat)
  | [] => (s, [])
  | b :: bs =>
      let (s', d) := pkttransfer_process_byte pmax s b
      let (s'', ds) := decodeRun pmax s' bs
      (s'', d.toList ++ ds)

/-- `pkttransfer_task`, CAN build.  `rx_oracle` maps the CAN filter
identifier handed to `rx_cb` to the bytes the hardware returns for it
(`rx_cb` is consulted only when `rx_ready` holds).  Result: new state,
optional emitted CAN frame (bytes and identifier handed to `tx_cb`),
and the payloads delivered to the app. -/
def pkttransfer_task_can (pmax : Nat) (s : PState)
    (tx_avail rx_ready : Bool) (rx_oracle : Nat → List Nat) :
    PState × Option (List Nat × Nat) × List (List Nat) :=
  let (s1, frame) :=
    if pkttransfer_bytes_for_sending s then
      if tx_avail then
        let (s', bytes) := canDrain PKTTRANSFER_CAN_MGS_SIZE s
        (s', some (bytes, s'.can_id_tx))
      else (s, none)
    else (s, none)
  if rx_ready then
    let (s2, delivered) := decodeRun pmax s1 (rx_oracle s1.can_id_rx)
    (s2, frame, delivered)
  else
    (s1, frame, [])

-- ==================== reference framing ====================

/-- byte stuffing of one body byte, per the framing comment in the source -/
def stuffByte (b : Nat) : List Nat :=
  if b = 0x7E then [0x7D, 0x5E]
  else if b = 0x7D then [0x7D, 0x5D]
  else [b]

def stuff : List Nat → List Nat
  | [] => []
  | b :: bs => stuffByte b ++ stuff bs

/-- the little-endian CRC trailer of a payload -/
def crcBytes (p : List Nat) : List Nat :=
  [pkttransfer_crc16 p &&& 0xFF, (pkttransfer_crc16 p >>> 8) % 256]

/-- the framed encoding `0x7E · stuffed(p · CRC_LO · CRC_HI) · 0x7E` -/
def frameBytes (p : List Nat) : List Nat :=
  0x7E :: (stuff (p ++ crcBytes p) ++ [0x7E])

/-- run the UART task pump `fuel` times with the hardware always
TX-available and nothing to receive, stopping once `tx_size = 0`;
collects the bytes handed to the hardware. -/
def uartPump (pmax : Nat) : Nat → PState → PState × List Nat
  | 0, s => (s, [])
  | fuel + 1, s =>
      if s.tx_size = 0 then (s, [])
      else
        let r := pkttransfer_task_uart pmax s true false 0
        let rest := uartPump pmax fuel r.1
        (rest.1, r.2.1 ++ rest.2)


-- ========== CAN end-to-end scenario instance (payload_max = 512) ==========

/-- all-zero initial contents of the scenario's caller-owned buffers -/
def canScn_zero : Nat → Nat := fun _ => 0

/-- scenario: fresh instance with RX filter identifier 2 installed -/
def canScn_s0 : PState :=
  pkttransfer_set_can_id_rx (pkttransfer_init canScn_zero canScn_zero) 2

/-- scenario: submit the nine ASCII bytes "123456789" under `can_id_tx = 1` -/
def canScn_sent : PState × Int :=
  pkttransfer_send 512 canScn_s0 [0x31, 0x32, 0x33, 0x34, 0x35, 0x36, 0x37, 0x38, 0x39] 1

/-- scenario: first task tick, hardware TX-available, nothing received -/
def canScn_t1 : PState × Option (List Nat × Nat) × List (List Nat) :=
  pkttransfer_task_can 512 canScn_sent.1 true false (fun _ => [])

/-- scenario: second task tick -/
def canScn_t2 : PState × Option (List Nat × Nat) × List (List Nat) :=
  pkttransfer_task_can 512 canScn_t1.1 true false (fun _ => [])

/-- scenario: third task tick (TX already idle) -/
def canScn_t3 : PState × Option (List Nat × Nat) × List (List Nat) :=
  pkttransfer_task_can 512 canScn_t2.1 true false (fun _ => [])

/-- scenario: receive tick, the first emitted CAN frame looped back under
identifier 2 -/
def canScn_r1 : PState × Option (List Nat × Nat) × List (List Nat) :=
  pkttransfer_task_can 512 canScn_t3.1 false true
    (fun i => if i = 2 then [0x7E, 0x31, 0x32, 0x33, 0x34, 0x35, 0x36, 0x37] else [])

/-- scenario: receive tick, the second emitted CAN frame looped back -/
def canScn_r2 : PState × Option (List Nat × Nat) × List (List Nat) :=
  pkttransfer_task_can 512 canScn_r1.1 false true
    (fun i => if i = 2 then [0x38, 0x39, 0x6E, 0x90, 0x7E] else [])

/-- a small UART receive scenario (`payload_max = 3`): the bytes
`7E 31 72 D0` of the framed encoding of `[0x31]` (CRC `0xD072`) fed
through the task; the next byte `0x7E` closes the frame -/
def rxScn_st : PState :=
  (pkttransfer_task_uart 3 (pkttransfer_task_uart 3 (pkttransfer_task_uart 3
    (pkttransfer_task_uart 3 (pkttransfer_init canScn_zero canScn_zero)
      false true 0x7E).1 false true 0x31).1 false true 0x72).1 false true 0xD0).1

-- ==================== CRC lemmas ====================

lemma crc16_round_lt {c : Nat} (h : c < 2 ^ 16) : crc16_round c < 2 ^ 16 := by
  unfold crc16_round
  have h1 : c >>> 1 < 2 ^ 16 := by
    rw [Nat.shiftRight_eq_div_pow]
    omega
  split
  · exact Nat.xor_lt_two_pow h1 (by norm_num)
  · exact h1

lemma crc16_shift_lt {c : Nat} (n : Nat) (h : c < 2 ^ 16) : crc16_shift n c < 2 ^ 16 := by
  induction n generalizing c with
  | zero => exact h
  | succ n ih => exact ih (crc16_round_lt h)

lemma crc16_fold_lt {c : Nat} (data : List Nat) (h : c < 2 ^ 16) :
    data.foldl (fun c b => crc16_shift 8 (c ^^^ (b &&& 0x00FF))) c < 2 ^ 16 := by
  induction data generalizing c with
  | nil => exact h
  | cons b bs ih =>
      refine ih (crc16_shift_lt 8 (Nat.xor_lt_two_pow h ?_))
      calc b &&& 0x00FF ≤ 0x00FF := Nat.and_le_right
        _ < 2 ^ 16 := by norm_num

lemma and_bytes_split (h l h' l' : Nat) (hl : l < 2 ^ 8) (hl' : l' < 2 ^ 8) :
    (2 ^ 8 * h + l) &&& (2 ^ 8 * h' + l') = 2 ^ 8 * (h &&& h') + (l &&& l') := by
  apply Nat.eq_of_testBit_eq
  intro j
  rw [Nat.testBit_mul_pow_two_add _ (Nat.and_lt_two_pow l hl') j,
    Nat.testBit_and, Nat.testBit_mul_pow_two_add _ hl j,
    Nat.testBit_mul_pow_two_add _ hl' j]
  by_cases hj : j < 8 <;> simp [hj]

lemma xor_bytes_split (h l h' l' : Nat) (hl : l < 2 ^ 8) (hl' : l' < 2 ^ 8) :
    (2 ^ 8 * h + l) ^^^ (2 ^ 8 * h' + l') = 2 ^ 8 * (h ^^^ h') + (l ^^^ l') := by
  apply Nat.eq_of_testBit_eq
  intro j
  rw [Nat.testBit_mul_pow_two_add _ (Nat.xor_lt_two_pow hl hl') j,
    Nat.testBit_xor, Nat.testBit_mul_pow_two_add _ hl j,
    Nat.testBit_mul_pow_two_add _ hl' j]
  by_cases hj : j < 8 <;> simp [hj]

lemma crc_finalize_eq {c : Nat} (hc : c < 2 ^ 16) :
    (((((c &&& 0xFF00) >>> 8) ^^^ (0xFFFF &&& 0x00FF)) &&& 0x00FF) <<< 8) |||
      ((c &&& 0x00FF) ^^^ ((0xFFFF &&& 0xFF00) >>> 8)) = c ^^^ 0xFFFF := by
  obtain ⟨h, l, hh, hl, rfl⟩ :
      ∃ h l, h < 2 ^ 8 ∧ l < 2 ^ 8 ∧ c = 2 ^ 8 * h + l :=
    ⟨c / 2 ^ 8, c % 2 ^ 8, by omega, by omega, by omega⟩
  have e1 : (2 ^ 8 * h + l) &&& 0xFF00 = 2 ^ 8 * h := by
    have : (0xFF00 : Nat) = 2 ^ 8 * 0xFF + 0 := by norm_num
    rw [this, and_bytes_split h l 0xFF 0 hl (by norm_num)]
    have : h &&& 0xFF = h := by
      have := Nat.and_pow_two_sub_one_of_lt_two_pow (n := 8) hh
      simpa using this
    simp [this]
  have e2 : (2 ^ 8 * h + l) &&& 0x00FF = l := by
    have : (0x00FF : Nat) = 2 ^ 8 * 0 + 0xFF := by norm_num
    rw [this, and_bytes_split h l 0 0xFF hl (by norm_num)]
    have : l &&& 0xFF = l := by
      have := Nat.and_pow_two_sub_one_of_lt_two_pow (n := 8) hl
      simpa using this
    simp [this]
  have e3 : (2 ^ 8 * h) >>> 8 = h := by
    rw [Nat.shiftRight_eq_div_pow]
    exact Nat.mul_div_cancel_left h (by norm_num)
  have e4 : (0xFFFF : Nat) &&& 0x00FF = 0xFF := by decide
  have e5 : ((0xFFFF : Nat) &&& 0xFF00) >>> 8 = 0xFF := by decide
  rw [e1, e2, e3, e4, e5]
  have hx : h ^^^ 0xFF < 2 ^ 8 := Nat.xor_lt_two_pow hh (by norm_num)
  have e6 : (h ^^^ 0xFF) &&& 0x00FF = h ^^^ 0xFF := by
    have := Nat.and_pow_two_sub_one_of_lt_two_pow (n := 8) hx
    simpa using this
  rw [e6, Nat.shiftLeft_eq]
  have hy : l ^^^ 0xFF < 2 ^ 8 := Nat.xor_lt_two_pow hl (by norm_num)
  rw [Nat.mul_comm (h ^^^ 0xFF) (2 ^ 8), ← Nat.mul_add_lt_is_or hy]
  have : (0xFFFF : Nat) = 2 ^ 8 * 0xFF + 0xFF := by norm_num
  rw [this, xor_bytes_split h l 0xFF 0xFF hl (by norm_num)]

/-- C5: `pkttransfer_crc16` computes CRC-16/X-25 — it coincides with the
reference reflected-0x8408 / init 0xFFFF / final-xor 0xFFFF definition on
every input buffer, and maps the ASCII bytes "123456789" to 0x906E. -/
theorem pkttransfer_crc16_implements_x25 :
    (∀ data : List Nat, pkttransfer_crc16 data = crc16_x25 data) ∧
    pkttransfer_crc16 [0x31, 0x32, 0x33, 0x34, 0x35, 0x36, 0x37, 0x38, 0x39] = 0x906E := by
  constructor
  · intro data
    have hfold : (fun (c b : Nat) => crc16_shift 8 (c ^^^ (b &&& 0x00FF))) = crc16_x25_byte := rfl
    unfold pkttransfer_crc16 crc16_x25
    rw [hfold]
    exact crc_finalize_eq (by simpa using crc16_fold_lt (c := 0xFFFF) data (by norm_num))
  · set_option maxRecDepth 10000 in decide

-- ==================== concrete decoder/TX evaluations ====================

/-- C1 (evaluation at the failing input): the round-trip fails at
`|p| = payload_max`.  With `payload_max = 1` the framed encoding of the
one-byte payload `[0x31]` produces no delivery (the decoder drops the
frame once `rx_size` reaches `payload_max` while buffering the CRC
trailer), while the very same frame is delivered once `payload_max` is
two larger; a payload of length `payload_max - 1` fails as well. -/
theorem pkttransfer_roundtrip_fails_at_payload_max :
    (decodeRun 1 (pkttransfer_init (fun _ => 0) (fun _ => 0))
      (frameBytes [0x31])).2 = [] ∧
    (decodeRun 3 (pkttransfer_init (fun _ => 0) (fun _ => 0))
      (frameBytes [0x31])).2 = [[0x31]] ∧
    (decodeRun 4 (pkttransfer_init (fun _ => 0) (fun _ => 0))
      (frameBytes [0x31, 0x32, 0x33])).2 = [] := by
  set_option maxRecDepth 20000 in decide

/-- C2 (evaluation at the failing input): with `payload_max = 1`, after
`0x7E 0x31` the decoder is in the `Byte` state with `rx_size = 1`, which
is strictly below `payload_max + 2 = 3`; the spec therefore requires the
next ordinary byte `0x32` to be appended, but the code drops the frame
(`rx_size := 0`, state `Delimiter`) because its guard fires already at
`rx_size >= payload_max`. -/
theorem pkttransfer_rx_drop_below_claimed_threshold :
    (let s := (decodeRun 1 (pkttransfer_init (fun _ => 0) (fun _ => 0))
                  [0x7E, 0x31]).1
     s.rx_state = FrameState.Byte ∧ s.rx_size = 1 ∧ s.rx_size < 1 + 2 ∧
     (pkttransfer_process_byte 1 s 0x32).1.rx_size = 0 ∧
     (pkttransfer_process_byte 1 s 0x32).1.rx_state = FrameState.Delimiter ∧
     (pkttransfer_process_byte 1 s 0x32).2 = none) := by
  set_option maxRecDepth 20000 in decide

-- ==================== CAN scenario step lemmas ====================

lemma canScn_crc9 :
    pkttransfer_crc16 [0x31, 0x32, 0x33, 0x34, 0x35, 0x36, 0x37, 0x38, 0x39] = 0x906E := by
  set_option maxRecDepth 2000 in decide

lemma canScn_sent_fields :
    canScn_sent.2 = PKTTRANSFER_ERR_OK ∧
    canScn_sent.1.tx_state = FrameState.Delimiter ∧ canScn_sent.1.tx_size = 11 ∧
    canScn_sent.1.sent_size = 0 ∧ canScn_sent.1.rx_state = FrameState.Delimiter ∧
    canScn_sent.1.rx_size = 0 ∧ canScn_sent.1.can_id_rx = 2 ∧
    canScn_sent.1.can_id_tx = 1 := by
  refine ⟨?_, ?_, ?_, ?_, ?_, ?_, ?_, ?_⟩ <;>
    simp [canScn_sent, canScn_s0, pkttransfer_send, pkttransfer_set_can_id_rx,
      pkttransfer_init, PKTTRANSFER_FRAME_CRC_SIZE]

lemma canScn_sent_buf :
    canScn_sent.1.buf_tx 0 = 0x31 ∧ canScn_sent.1.buf_tx 1 = 0x32 ∧
    canScn_sent.1.buf_tx 2 = 0x33 ∧ canScn_sent.1.buf_tx 3 = 0x34 ∧
    canScn_sent.1.buf_tx 4 = 0x35 ∧ canScn_sent.1.buf_tx 5 = 0x36 ∧
    canScn_sent.1.buf_tx 6 = 0x37 ∧ canScn_sent.1.buf_tx 7 = 0x38 ∧
    canScn_sent.1.buf_tx 8 = 0x39 ∧ canScn_sent.1.buf_tx 9 = 0x6E ∧
    canScn_sent.1.buf_tx 10 = 0x90 := by
  have hlo : (0x906E : Nat) &&& 0xFF = 0x6E := by decide
  have hhi : ((0x906E : Nat) >>> 8) % 256 = 0x90 := by decide
  refine ⟨?_, ?_, ?_, ?_, ?_, ?_, ?_, ?_, ?_, ?_, ?_⟩ <;>
    simp [canScn_sent, canScn_s0, pkttransfer_send, pkttransfer_set_can_id_rx,
      pkttransfer_init, PKTTRANSFER_FRAME_CRC_SIZE, writeList, canScn_crc9,
      hlo, hhi, Function.update_apply]

lemma canScn_tick1 :
    canScn_t1.2.1 = some ([0x7E, 0x31, 0x32, 0x33, 0x34, 0x35, 0x36, 0x37], 1) ∧
    canScn_t1.1.tx_state = FrameState.Byte ∧ canScn_t1.1.tx_size = 11 ∧
    canScn_t1.1.sent_size = 7 ∧ canScn_t1.1.rx_state = FrameState.Delimiter ∧
    canScn_t1.1.rx_size = 0 ∧ canScn_t1.1.can_id_rx = 2 ∧
    canScn_t1.1.can_id_tx = 1 ∧ canScn_t1.1.buf_tx = canScn_sent.1.buf_tx := by
  obtain ⟨_, h2, h3, h4, h5, h6, h7, h8⟩ := canScn_sent_fields
  obtain ⟨b0, b1, b2, b3, b4, b5, b6, b7, b8, b9, b10⟩ := canScn_sent_buf
  refine ⟨?_, ?_, ?_, ?_, ?_, ?_, ?_, ?_, ?_⟩ <;>
    simp [canScn_t1, pkttransfer_task_can, pkttransfer_bytes_for_sending, canDrain,
      pkttransfer_prepare_byte, u32wrap, h2, h3, h4, h5, h6, h7, h8,
      b0, b1, b2, b3, b4, b5, b6, b7, b8, b9, b10,
      PKTTRANSFER_FRAME_DELIMITER_BYTE, PKTTRANSFER_FRAME_ESCAPE_BYTE,
      PKTTRANSFER_FRAME_ENCODED_DELIMITER_BYTE, PKTTRANSFER_FRAME_ENCODED_ESCAPE_BYTE,
      PKTTRANSFER_CAN_MGS_SIZE]

lemma canScn_tick2 :
    canScn_t2.2.1 = some ([0x38, 0x39, 0x6E, 0x90, 0x7E], 1) ∧
    canScn_t2.1.tx_size = 0 ∧ canScn_t2.1.rx_state = FrameState.Delimiter ∧
    canScn_t2.1.rx_size = 0 ∧ canScn_t2.1.can_id_rx = 2 := by
  obtain ⟨_, h2, h3, h4, h5, h6, h7, h8, h9⟩ := canScn_tick1
  obtain ⟨b0, b1, b2, b3, b4, b5, b6, b7, b8, b9, b10⟩ := canScn_sent_buf
  refine ⟨?_, ?_, ?_, ?_, ?_⟩ <;>
    simp [canScn_t2, pkttransfer_task_can, pkttransfer_bytes_for_sending, canDrain,
      pkttransfer_prepare_byte, u32wrap, h2, h3, h4, h5, h6, h7, h8, h9,
      b0, b1, b2, b3, b4, b5, b6, b7, b8, b9, b10,
      PKTTRANSFER_FRAME_DELIMITER_BYTE, PKTTRANSFER_FRAME_ESCAPE_BYTE,
      PKTTRANSFER_FRAME_ENCODED_DELIMITER_BYTE, PKTTRANSFER_FRAME_ENCODED_ESCAPE_BYTE,
      PKTTRANSFER_CAN_MGS_SIZE]

lemma canScn_tick3 :
    canScn_t3.2.1 = none ∧
    canScn_t3.1.tx_size = 0 ∧ canScn_t3.1.rx_state = FrameState.Delimiter ∧
    canScn_t3.1.rx_size = 0 ∧ canScn_t3.1.can_id_rx = 2 := by
  obtain ⟨_, h2, h3, h4, h5⟩ := canScn_tick2
  refine ⟨?_, ?_, ?_, ?_, ?_⟩ <;>
    simp [canScn_t3, pkttransfer_task_can, pkttransfer_bytes_for_sending,
      h2, h3, h4, h5]

lemma canScn_rx1 :
    canScn_r1.2.2 = [] ∧
    canScn_r1.1.rx_state = FrameState.Byte ∧ canScn_r1.1.rx_size = 7 ∧
    canScn_r1.1.can_id_rx = 2 ∧ canScn_r1.1.tx_size = 0 ∧
    canScn_r1.1.buf_rx 0 = 0x31 ∧ canScn_r1.1.buf_rx 1 = 0x32 ∧
    canScn_r1.1.buf_rx 2 = 0x33 ∧ canScn_r1.1.buf_rx 3 = 0x34 ∧
    canScn_r1.1.buf_rx 4 = 0x35 ∧ canScn_r1.1.buf_rx 5 = 0x36 ∧
    canScn_r1.1.buf_rx 6 = 0x37 := by
  obtain ⟨_, h2, h3, h4, h5⟩ := canScn_tick3
  refine ⟨?_, ?_, ?_, ?_, ?_, ?_, ?_, ?_, ?_, ?_, ?_, ?_⟩ <;>
  · simp [canScn_r1, pkttransfer_task_can, pkttransfer_bytes_for_sending, h2, h5]
    simp [decodeRun, pkttransfer_process_byte, u32wrap, h2, h3, h4, h5,
      Function.update_apply,
      PKTTRANSFER_FRAME_DELIMITER_BYTE, PKTTRANSFER_FRAME_ESCAPE_BYTE,
      PKTTRANSFER_FRAME_ENCODED_DELIMITER_BYTE, PKTTRANSFER_FRAME_ENCODED_ESCAPE_BYTE]

lemma canScn_rx2 :
    canScn_r2.2.2 = [[0x31, 0x32, 0x33, 0x34, 0x35, 0x36, 0x37, 0x38, 0x39]] := by
  obtain ⟨_, h2, h3, h4, h5, c0, c1, c2, c3, c4, c5, c6⟩ := canScn_rx1
  have hw : (((0x90 : Nat) <<< 8) ||| 0x6E) % 65536 = 0x906E := by decide
  simp [canScn_r2, pkttransfer_task_can, pkttransfer_bytes_for_sending, h4, h5]
  simp [decodeRun, pkttransfer_process_byte, pkttransfer_process_frame, u32wrap,
    h2, h3, h4, c0, c1, c2, c3, c4, c5, c6, Function.update_apply, readBuf,
    List.range_succ, canScn_crc9, hw,
    PKTTRANSFER_FRAME_DELIMITER_BYTE, PKTTRANSFER_FRAME_ESCAPE_BYTE,
    PKTTRANSFER_FRAME_ENCODED_DELIMITER_BYTE, PKTTRANSFER_FRAME_ENCODED_ESCAPE_BYTE,
    PKTTRANSFER_FRAME_CRC_SIZE]

/-- C7: CAN chunking scenario. With `payload_max = 512`, `can_id_rx = 2`
and the 9-byte payload "123456789" submitted under `can_id_tx = 1`, the
task pump (hardware always TX-available) emits exactly two CAN frames
with identifier 1, of 8 and 5 bytes, whose concatenation is the 13-byte
UART frame; a third tick emits nothing.  Feeding those 13 bytes back
through the CAN receive path under identifier 2 delivers the payload. -/
theorem pkttransfer_can_chunking_scenario :
    canScn_sent.2 = PKTTRANSFER_ERR_OK ∧
    canScn_t1.2.1 = some ([0x7E, 0x31, 0x32, 0x33, 0x34, 0x35, 0x36, 0x37], 1) ∧
    canScn_t2.2.1 = some ([0x38, 0x39, 0x6E, 0x90, 0x7E], 1) ∧
    canScn_t3.2.1 = none ∧
    [0x7E, 0x31, 0x32, 0x33, 0x34, 0x35, 0x36, 0x37] ++ [0x38, 0x39, 0x6E, 0x90, 0x7E] =
      frameBytes [0x31, 0x32, 0x33, 0x34, 0x35, 0x36, 0x37, 0x38, 0x39] ∧
    canScn_r1.2.2 = [] ∧
    canScn_r2.2.2 = [[0x31, 0x32, 0x33, 0x34, 0x35, 0x36, 0x37, 0x38, 0x39]] := by
  have hlo : (0x906E : Nat) &&& 0xFF = 0x6E := by decide
  have hhi : ((0x906E : Nat) >>> 8) % 256 = 0x90 := by decide
  refine ⟨canScn_sent_fields.1, canScn_tick1.1, canScn_tick2.1, canScn_tick3.1,
    ?_, canScn_rx1.1, canScn_rx2⟩
  simp [frameBytes, crcBytes, stuff, stuffByte, canScn_crc9, hlo, hhi]

-- ==================== submit error handling ====================

/-- C4: in both builds `pkttransfer_send` returns `TxOverflow` exactly
when the requested size exceeds `payload_size_max` or a prior submission
is still in flight (`tx_size != 0`); in that case the instance is left
untouched (buffers, sizes, counters and CAN identifiers included), and
otherwise the call returns `Ok`. -/
theorem pkttransfer_send_txoverflow_iff (pmax : Nat) (s : PState) (p : List Nat) (id : Nat) :
    ((pkttransfer_send pmax s p id).2 = PKTTRANSFER_ERR_TX_OVF ↔
       pmax < p.length ∨ s.tx_size ≠ 0) ∧
    ((pmax < p.length ∨ s.tx_size ≠ 0) → (pkttransfer_send pmax s p id).1 = s) ∧
    (¬(pmax < p.length ∨ s.tx_size ≠ 0) →
       (pkttransfer_send pmax s p id).2 = PKTTRANSFER_ERR_OK) ∧
    ((pkttransfer_send_uart pmax s p).2 = PKTTRANSFER_ERR_TX_OVF ↔
       pmax < p.length ∨ s.tx_size ≠ 0) ∧
    ((pmax < p.length ∨ s.tx_size ≠ 0) → (pkttransfer_send_uart pmax s p).1 = s) ∧
    (¬(pmax < p.length ∨ s.tx_size ≠ 0) →
       (pkttransfer_send_uart pmax s p).2 = PKTTRANSFER_ERR_OK) := by
  unfold pkttransfer_send pkttransfer_send_uart
  by_cases h1 : pmax < p.length <;> by_cases h2 : s.tx_size = 0 <;>
    simp [h1, h2, PKTTRANSFER_ERR_OK, PKTTRANSFER_ERR_TX_OVF]

/-- witness for C4 at a concrete input: submitting three bytes with
`payload_max = 2` on a fresh instance fails with `TxOverflow` and leaves
the instance untouched. -/
theorem pkttransfer_send_txoverflow_iff_witness :
    (pkttransfer_send 2 (pkttransfer_init (fun _ => 0) (fun _ => 0)) [1, 2, 3] 0).1 =
      pkttransfer_init (fun _ => 0) (fun _ => 0) ∧
    (pkttransfer_send 2 (pkttransfer_init (fun _ => 0) (fun _ => 0)) [1, 2, 3] 0).2 =
      PKTTRANSFER_ERR_TX_OVF :=
  ⟨(pkttransfer_send_txoverflow_iff 2 (pkttransfer_init (fun _ => 0) (fun _ => 0))
      [1, 2, 3] 0).2.1 (Or.inl (by decide)),
   ((pkttransfer_send_txoverflow_iff 2 (pkttransfer_init (fun _ => 0) (fun _ => 0))
      [1, 2, 3] 0).1).mpr (Or.inl (by decide))⟩

-- ==================== writeList lemmas ====================

lemma writeList_lt (xs : List Nat) : ∀ f i x, x < i → writeList f i xs x = f x := by
  induction xs with
  | nil => intro f i x _; rfl
  | cons b bs ih =>
      intro f i x hx
      show writeList (Function.update f i b) (i + 1) bs x = f x
      rw [ih _ _ _ (by omega), Function.update_noteq (by omega)]

lemma writeList_get (xs : List Nat) :
    ∀ f i j, j < xs.length → writeList f i xs (i + j) = xs.getD j 0 := by
  induction xs with
  | nil => intro f i j hj; simp at hj
  | cons b bs ih =>
      intro f i j hj
      match j with
      | 0 =>
          show writeList (Function.update f i b) (i + 1) bs (i + 0) = b
          rw [writeList_lt _ _ _ _ (by omega)]
          simp
      | j + 1 =>
          show writeList (Function.update f i b) (i + 1) bs (i + (j + 1)) = bs.getD j 0
          have : i + (j + 1) = (i + 1) + j := by omega
          rw [this, ih _ _ _ (by simpa using hj)]

-- ==================== uartPump step lemmas ====================

lemma uartPump_idle (pmax fuel : Nat) (s : PState) (h : s.tx_size = 0) :
    uartPump pmax fuel s = (s, []) := by
  cases fuel with
  | zero => rfl
  | succ f => simp [uartPump, h]

lemma uartPump_step (pmax fuel : Nat) (s : PState) (h : s.tx_size ≠ 0) :
    uartPump pmax (fuel + 1) s =
      ((uartPump pmax fuel (pkttransfer_prepare_byte s).1).1,
       (pkttransfer_prepare_byte s).2 ::
         (uartPump pmax fuel (pkttransfer_prepare_byte s).1).2) := by
  simp [uartPump, pkttransfer_task_uart, pkttransfer_bytes_for_sending, h]

-- ==================== drain lemma ====================

lemma uartPump_drain (pmax : Nat) :
    ∀ (body : List Nat) (s : PState) (fuel : Nat),
      s.tx_state = FrameState.Byte →
      s.tx_size = s.sent_size + body.length →
      s.tx_size ≠ 0 →
      (∀ j, j < body.length → s.buf_tx (s.sent_size + j) = body.getD j 0) →
      2 * body.length + 1 ≤ fuel →
      (uartPump pmax fuel s).2 = stuff body ++ [0x7E] ∧
      (uartPump pmax fuel s).1.tx_size = 0 := by
  intro body
  induction body with
  | nil =>
      intro s fuel hstate hsize hnz hbuf hfuel
      obtain ⟨f, rfl⟩ : ∃ f, fuel = f + 1 := ⟨fuel - 1, by omega⟩
      rw [uartPump_step pmax f s hnz]
      have hsent : s.sent_size = s.tx_size := by simpa using hsize.symm
      have hprep : pkttransfer_prepare_byte s =
          ({ s with sent_size := 0, tx_size := 0, tx_state := .Delimiter,
                    sent_packets_cnt := u32wrap (s.sent_packets_cnt + 1) },
           PKTTRANSFER_FRAME_DELIMITER_BYTE) := by
        simp [pkttransfer_prepare_byte, hsent]
      rw [hprep]
      rw [uartPump_idle pmax f _ rfl]
      simp [stuff, PKTTRANSFER_FRAME_DELIMITER_BYTE]
  | cons b bs ih =>
      intro s fuel hstate hsize hnz hbuf hfuel
      obtain ⟨f, rfl⟩ : ∃ f, fuel = f + 1 := ⟨fuel - 1, by omega⟩
      have hlen : s.tx_size = s.sent_size + (bs.length + 1) := by simpa using hsize
      have hne : s.sent_size ≠ s.tx_size := by omega
      have hhead : s.buf_tx s.sent_size = b := by
        have := hbuf 0 (by simp)
        simpa using this
      rw [uartPump_step pmax f s hnz]
      by_cases hesc : b = PKTTRANSFER_FRAME_DELIMITER_BYTE ∨ b = PKTTRANSFER_FRAME_ESCAPE_BYTE
      · -- escaped byte: two encoder steps
        have hprep : pkttransfer_prepare_byte s =
            ({ s with tx_state := .EncodedByte }, PKTTRANSFER_FRAME_ESCAPE_BYTE) := by
          simp [pkttransfer_prepare_byte, hne, hstate, hhead, hesc]
        rw [hprep]
        obtain ⟨f', rfl⟩ : ∃ f', f = f' + 1 := ⟨f - 1, by simp at hfuel; omega⟩
        have hnz1 : ({ s with tx_state := FrameState.EncodedByte } : PState).tx_size ≠ 0 := hnz
        rw [uartPump_step pmax f' _ hnz1]
        have hne1 : ({ s with tx_state := FrameState.EncodedByte } : PState).sent_size ≠
            ({ s with tx_state := FrameState.EncodedByte } : PState).tx_size := hne
        have hprep1 : pkttransfer_prepare_byte { s with tx_state := .EncodedByte } =
            ({ s with tx_state := .Byte, sent_size := s.sent_size + 1 },
             if b = PKTTRANSFER_FRAME_DELIMITER_BYTE then
               PKTTRANSFER_FRAME_ENCODED_DELIMITER_BYTE
             else PKTTRANSFER_FRAME_ENCODED_ESCAPE_BYTE) := by
          simp [pkttransfer_prepare_byte, hne1, hhead]
        rw [hprep1]
        have hrest := ih { s with tx_state := .Byte, sent_size := s.sent_size + 1 } f'
          rfl (by simp; omega) hnz
          (by
            intro j hj
            have h := hbuf (j + 1) (by simp; omega)
            have e : s.sent_size + (j + 1) = s.sent_size + 1 + j := by omega
            rw [e] at h
            simpa using h)
          (by simp at hfuel ⊢; omega)
        refine ⟨?_, hrest.2⟩
        rw [hrest.1]
        rcases hesc with hb | hb <;>
          simp [hb, stuff, stuffByte, PKTTRANSFER_FRAME_DELIMITER_BYTE,
            PKTTRANSFER_FRAME_ESCAPE_BYTE, PKTTRANSFER_FRAME_ENCODED_DELIMITER_BYTE,
            PKTTRANSFER_FRAME_ENCODED_ESCAPE_BYTE]
      · -- plain byte: one encoder step
        push_neg at hesc
        have hprep : pkttransfer_prepare_byte s =
            ({ s with sent_size := s.sent_size + 1 }, b) := by
          simp [pkttransfer_prepare_byte, hne, hstate, hhead, hesc.1, hesc.2]
        rw [hprep]
        have hrest := ih { s with sent_size := s.sent_size + 1 } f
          hstate (by simp; omega) hnz
          (by
            intro j hj
            have h := hbuf (j + 1) (by simp; omega)
            have e : s.sent_size + (j + 1) = s.sent_size + 1 + j := by omega
            rw [e] at h
            simpa using h)
          (by simp at hfuel ⊢; omega)
        refine ⟨?_, hrest.2⟩
        rw [hrest.1]
        have hb1 : b ≠ 0x7E := by simpa [PKTTRANSFER_FRAME_DELIMITER_BYTE] using hesc.1
        have hb2 : b ≠ 0x7D := by simpa [PKTTRANSFER_FRAME_ESCAPE_BYTE] using hesc.2
        simp [stuff, stuffByte, hb1, hb2]

lemma send_buf_facts (pmax : Nat) (s0 : PState) (p : List Nat)
    (h0 : s0.tx_size = 0) (hnp : ¬ pmax < p.length) :
    ∀ j, j < p.length + 2 →
      (pkttransfer_send_uart pmax s0 p).1.buf_tx j = (p ++ crcBytes p).getD j 0 := by
  intro j hj
  have hform : (pkttransfer_send_uart pmax s0 p).1.buf_tx =
      Function.update
        (Function.update (writeList s0.buf_tx 0 p) p.length (pkttransfer_crc16 p &&& 0xFF))
        (p.length + 1) ((pkttransfer_crc16 p >>> 8) % 256) := by
    simp [pkttransfer_send_uart, hnp, h0]
  rw [hform]
  rcases Nat.lt_trichotomy j p.length with hlt | heq | hgt
  · rw [Function.update_noteq (by omega), Function.update_noteq (by omega)]
    have hw := writeList_get p s0.buf_tx 0 j hlt
    simp only [Nat.zero_add] at hw
    rw [hw, List.getD_append _ _ _ _ hlt]
  · subst heq
    rw [Function.update_noteq (by omega), Function.update_same]
    rw [List.getD_append_right _ _ _ _ (le_refl _)]
    simp [crcBytes]
  · have heq1 : j = p.length + 1 := by omega
    subst heq1
    rw [Function.update_same]
    rw [List.getD_append_right _ _ _ _ (by omega)]
    simp [crcBytes]

lemma drain_after_send (pmax : Nat) (s : PState) (p : List Nat) (fuel : Nat)
    (h1 : s.tx_state = FrameState.Delimiter) (h2 : s.tx_size = p.length + 2)
    (h3 : s.sent_size = 0)
    (hb : ∀ j, j < p.length + 2 → s.buf_tx j = (p ++ crcBytes p).getD j 0)
    (hf : 2 * p.length + 6 ≤ fuel) :
    (uartPump pmax fuel s).2 = frameBytes p ∧ (uartPump pmax fuel s).1.tx_size = 0 := by
  obtain ⟨f, rfl⟩ : ∃ f, fuel = f + 1 := ⟨fuel - 1, by omega⟩
  have hnz : s.tx_size ≠ 0 := by omega
  rw [uartPump_step pmax f s hnz]
  have hprep : pkttransfer_prepare_byte s =
      ({ s with tx_state := .Byte }, PKTTRANSFER_FRAME_DELIMITER_BYTE) := by
    have hne : ¬ s.sent_size = s.tx_size := by omega
    simp [pkttransfer_prepare_byte, hne, h1]
  rw [hprep]
  have hdrain := uartPump_drain pmax (p ++ crcBytes p) { s with tx_state := .Byte } f
    rfl (by simp [h2, h3, crcBytes]) hnz
    (by
      intro j hj
      simp only [h3, Nat.zero_add]
      exact hb j (by simpa [crcBytes] using hj))
    (by simp [crcBytes]; omega)
  refine ⟨?_, hdrain.2⟩
  rw [hdrain.1]
  simp [frameBytes, PKTTRANSFER_FRAME_DELIMITER_BYTE]

/-- C3: TX framing correctness. -/
theorem pkttransfer_tx_framing (pmax : Nat) (s0 : PState) (p : List Nat) (fuel : Nat)
    (h0 : s0.tx_size = 0) (h1 : s0.tx_state = FrameState.Delimiter)
    (hp : p.length ≤ pmax) (hf : 2 * p.length + 6 ≤ fuel) :
    (pkttransfer_send_uart pmax s0 p).2 = PKTTRANSFER_ERR_OK ∧
    (uartPump pmax fuel (pkttransfer_send_uart pmax s0 p).1).2 = frameBytes p ∧
    (uartPump pmax fuel (pkttransfer_send_uart pmax s0 p).1).1.tx_size = 0 ∧
    frameBytes [0x01, 0x7D, 0x02, 0x7E] =
      [0x7E, 0x01, 0x7D, 0x5D, 0x02, 0x7D, 0x5E, 0x8B, 0x36, 0x7E] := by
  have hnp : ¬ pmax < p.length := by omega
  have hfields : (pkttransfer_send_uart pmax s0 p).1.tx_state = FrameState.Delimiter ∧
      (pkttransfer_send_uart pmax s0 p).1.tx_size = p.length + 2 ∧
      (pkttransfer_send_uart pmax s0 p).1.sent_size = 0 := by
    refine ⟨?_, ?_, ?_⟩ <;>
      simp [pkttransfer_send_uart, hnp, h0, h1, PKTTRANSFER_FRAME_CRC_SIZE]
  have hd := drain_after_send pmax (pkttransfer_send_uart pmax s0 p).1 p fuel
    hfields.1 hfields.2.1 hfields.2.2 (send_buf_facts pmax s0 p h0 hnp) hf
  refine ⟨by simp [pkttransfer_send_uart, hnp, h0], hd.1, hd.2, ?_⟩
  set_option maxRecDepth 10000 in decide


/-- witness for C3 at a concrete input: the spec's third end-to-end
vector, `payload_max = 4`, drained with fuel 14. -/
theorem pkttransfer_tx_framing_witness :
    (pkttransfer_send_uart 4 (pkttransfer_init (fun _ => 0) (fun _ => 0))
      [0x01, 0x7D, 0x02, 0x7E]).2 = PKTTRANSFER_ERR_OK ∧
    (uartPump 4 14 (pkttransfer_send_uart 4 (pkttransfer_init (fun _ => 0) (fun _ => 0))
      [0x01, 0x7D, 0x02, 0x7E]).1).2 = frameBytes [0x01, 0x7D, 0x02, 0x7E] :=
  ⟨(pkttransfer_tx_framing 4 (pkttransfer_init (fun _ => 0) (fun _ => 0))
      [0x01, 0x7D, 0x02, 0x7E] 14 rfl rfl (by decide) (by decide)).1,
   (pkttransfer_tx_framing 4 (pkttransfer_init (fun _ => 0) (fun _ => 0))
      [0x01, 0x7D, 0x02, 0x7E] 14 rfl rfl (by decide) (by decide)).2.1⟩

-- ==================== zero-length submit ====================

/-- C10: a zero-length submission on a TX-idle instance is accepted: it
returns `Ok`, sets `tx_size = 2` and `sent_size = 0`, stores exactly the
two little-endian CRC bytes of the empty payload (both `0x00`, since
`crc16([]) = 0`) at the first two TX-buffer cells, leaves the rest of the
TX buffer untouched, and the frame subsequently drained by the task pump
is the bare-CRC frame `7E 00 00 7E`. -/
theorem pkttransfer_send_empty_payload (pmax : Nat) (s : PState) (h0 : s.tx_size = 0) :
    (pkttransfer_send_uart pmax s []).2 = PKTTRANSFER_ERR_OK ∧
    (pkttransfer_send_uart pmax s []).1.tx_size = 2 ∧
    (pkttransfer_send_uart pmax s []).1.sent_size = 0 ∧
    pkttransfer_crc16 [] = 0 ∧
    (pkttransfer_send_uart pmax s []).1.buf_tx 0 = 0 ∧
    (pkttransfer_send_uart pmax s []).1.buf_tx 1 = 0 ∧
    (∀ x, 2 ≤ x → (pkttransfer_send_uart pmax s []).1.buf_tx x = s.buf_tx x) ∧
    (s.tx_state = FrameState.Delimiter → ∀ fuel, 6 ≤ fuel →
      (uartPump pmax fuel (pkttransfer_send_uart pmax s []).1).2 =
        [0x7E, 0x00, 0x00, 0x7E]) := by
  have hnp : ¬ pmax < ([] : List Nat).length := by simp
  have hcrc0 : pkttransfer_crc16 [] = 0 := by decide
  refine ⟨by simp [pkttransfer_send_uart, h0],
          by simp [pkttransfer_send_uart, h0, PKTTRANSFER_FRAME_CRC_SIZE],
          by simp [pkttransfer_send_uart, h0],
          hcrc0, ?_, ?_, ?_, ?_⟩
  · simp [pkttransfer_send_uart, h0, writeList, hcrc0, Function.update_apply]
  · simp [pkttransfer_send_uart, h0, writeList, hcrc0, Function.update_apply]
  · intro x hx
    have hx1 : x ≠ 1 := by omega
    have hx0 : x ≠ 0 := by omega
    simp [pkttransfer_send_uart, h0, writeList, Function.update_apply, hx0, hx1]
  · intro hdel fuel hfuel
    have hfields : (pkttransfer_send_uart pmax s []).1.tx_state = FrameState.Delimiter ∧
        (pkttransfer_send_uart pmax s []).1.tx_size = ([] : List Nat).length + 2 ∧
        (pkttransfer_send_uart pmax s []).1.sent_size = 0 := by
      refine ⟨?_, ?_, ?_⟩ <;>
        simp [pkttransfer_send_uart, h0, hdel, PKTTRANSFER_FRAME_CRC_SIZE]
    have hd := drain_after_send pmax (pkttransfer_send_uart pmax s []).1 [] fuel
      hfields.1 hfields.2.1 hfields.2.2 (send_buf_facts pmax s [] h0 hnp)
      (by simpa using hfuel)
    rw [hd.1]
    decide

/-- witness for C10 at a concrete input: empty submit on a fresh instance
with `payload_max = 3`. -/
theorem pkttransfer_send_empty_payload_witness :
    (pkttransfer_send_uart 3 (pkttransfer_init (fun _ => 0) (fun _ => 0)) []).2 =
      PKTTRANSFER_ERR_OK ∧
    (uartPump 3 6 (pkttransfer_send_uart 3 (pkttransfer_init (fun _ => 0) (fun _ => 0))
      []).1).2 = [0x7E, 0x00, 0x00, 0x7E] :=
  ⟨(pkttransfer_send_empty_payload 3 (pkttransfer_init (fun _ => 0) (fun _ => 0)) rfl).1,
   (pkttransfer_send_empty_payload 3 (pkttransfer_init (fun _ => 0) (fun _ => 0))
      rfl).2.2.2.2.2.2.2 rfl 6 (by decide)⟩

-- ==================== reachability ====================

inductive Reach (pmax : Nat) : PState → PState → Prop
  | refl (s : PState) : Reach pmax s s
  | send_uart (s0 s : PState) (p : List Nat) :
      Reach pmax s0 s → Reach pmax s0 (pkttransfer_send_uart pmax s p).1
  | send_can (s0 s : PState) (p : List Nat) (id : Nat) :
      Reach pmax s0 s → Reach pmax s0 (pkttransfer_send pmax s p id).1
  | set_id (s0 s : PState) (id : Nat) :
      Reach pmax s0 s → Reach pmax s0 (pkttransfer_set_can_id_rx s id)
  | task_uart (s0 s : PState) (ta rr : Bool) (b : Nat) :
      Reach pmax s0 s → Reach pmax s0 (pkttransfer_task_uart pmax s ta rr b).1
  | task_can (s0 s : PState) (ta rr : Bool) (oracle : Nat → List Nat) :
      Reach pmax s0 s → Reach pmax s0 (pkttransfer_task_can pmax s ta rr oracle).1

def DriverInv (pmax : Nat) (s : PState) : Prop :=
  s.sent_size ≤ s.tx_size ∧ s.tx_size ≤ pmax + 2 ∧
  (s.tx_size = 0 → s.tx_state = FrameState.Delimiter) ∧
  s.rx_size ≤ pmax

-- result shapes of the individual operations

lemma prepare_byte_cases (s : PState) :
    (pkttransfer_prepare_byte s).1 =
      { s with sent_size := 0, tx_size := 0, tx_state := .Delimiter,
               sent_packets_cnt := u32wrap (s.sent_packets_cnt + 1) } ∨
    ((pkttransfer_prepare_byte s).1 = { s with tx_state := .Byte } ∧
      s.sent_size ≠ s.tx_size) ∨
    ((pkttransfer_prepare_byte s).1 = { s with tx_state := .EncodedByte } ∧
      s.sent_size ≠ s.tx_size) ∨
    ((pkttransfer_prepare_byte s).1 = { s with sent_size := s.sent_size + 1 } ∧
      s.sent_size ≠ s.tx_size) ∨
    ((pkttransfer_prepare_byte s).1 =
        { s with sent_size := s.sent_size + 1, tx_state := .Byte } ∧
      s.sent_size ≠ s.tx_size) := by
  by_cases he : s.sent_size = s.tx_size
  · exact Or.inl (by simp [pkttransfer_prepare_byte, he])
  · cases hst : s.tx_state with
    | Delimiter =>
        exact Or.inr (Or.inl ⟨by simp [pkttransfer_prepare_byte, he, hst], he⟩)
    | Byte =>
        by_cases hb : s.buf_tx s.sent_size = PKTTRANSFER_FRAME_DELIMITER_BYTE ∨
            s.buf_tx s.sent_size = PKTTRANSFER_FRAME_ESCAPE_BYTE
        · exact Or.inr (Or.inr (Or.inl
            ⟨by simp [pkttransfer_prepare_byte, he, hst, hb], he⟩))
        · exact Or.inr (Or.inr (Or.inr (Or.inl
            ⟨by simp [pkttransfer_prepare_byte, he, hst, hb], he⟩)))
    | EncodedByte =>
        exact Or.inr (Or.inr (Or.inr (Or.inr
          ⟨by simp [pkttransfer_prepare_byte, he, hst], he⟩)))

lemma prepare_byte_inv {pmax : Nat} {s : PState} (h : DriverInv pmax s) :
    DriverInv pmax (pkttransfer_prepare_byte s).1 := by
  obtain ⟨h1, h2, h3, h4⟩ := h
  rcases prepare_byte_cases s with hc | ⟨hc, hne⟩ | ⟨hc, hne⟩ | ⟨hc, hne⟩ | ⟨hc, hne⟩ <;>
    rw [hc]
  · exact ⟨Nat.le_refl 0, show (0 : Nat) ≤ pmax + 2 from by omega, fun _ => rfl, h4⟩
  · exact ⟨h1, h2, fun hz => absurd (show s.tx_size = 0 from hz) (by omega), h4⟩
  · exact ⟨h1, h2, fun hz => absurd (show s.tx_size = 0 from hz) (by omega), h4⟩
  · exact ⟨show s.sent_size + 1 ≤ s.tx_size from by omega, h2,
      fun hz => absurd (show s.tx_size = 0 from hz) (by omega), h4⟩
  · exact ⟨show s.sent_size + 1 ≤ s.tx_size from by omega, h2,
      fun hz => absurd (show s.tx_size = 0 from hz) (by omega), h4⟩

lemma process_frame_cases (s : PState) :
    (pkttransfer_process_frame s).1 = s ∨
    (pkttransfer_process_frame s).1 =
      { s with received_packets_cnt := u32wrap (s.received_packets_cnt + 1) } := by
  by_cases h1 : s.rx_size ≤ PKTTRANSFER_FRAME_CRC_SIZE
  · exact Or.inl (by simp [pkttransfer_process_frame, h1])
  · by_cases h2 : (((s.buf_rx (s.rx_size - 1)) <<< 8) ||| (s.buf_rx (s.rx_size - 2))) % 65536 ≠
        pkttransfer_crc16 (readBuf s.buf_rx (s.rx_size - PKTTRANSFER_FRAME_CRC_SIZE))
    · exact Or.inl (by simp [pkttransfer_process_frame, h1, h2])
    · exact Or.inr (by simp [pkttransfer_process_frame, h1, h2])

lemma process_byte_cases (pmax : Nat) (s : PState) (b : Nat) :
    (pkttransfer_process_byte pmax s b).1 = s ∨
    (pkttransfer_process_byte pmax s b).1 =
      { s with sof_detections_cnt := u32wrap (s.sof_detections_cnt + 1),
               rx_state := .Byte } ∨
    (pkttransfer_process_byte pmax s b).1 = { s with rx_state := .EncodedByte } ∨
    (pkttransfer_process_byte pmax s b).1 =
      { (pkttransfer_process_frame s).1 with rx_size := 0, rx_state := .Delimiter } ∨
    (pkttransfer_process_byte pmax s b).1 =
      { s with rx_size := 0, rx_state := .Delimiter } ∨
    ((pkttransfer_process_byte pmax s b).1 =
      { s with buf_rx := Function.update s.buf_rx s.rx_size b,
               rx_size := s.rx_size + 1 } ∧ s.rx_size < pmax) ∨
    (∃ b2, (pkttransfer_process_byte pmax s b).1 =
      { s with buf_rx := Function.update s.buf_rx s.rx_size b2,
               rx_size := s.rx_size + 1, rx_state := .Byte } ∧ s.rx_size < pmax) := by
  cases hst : s.rx_state with
  | Delimiter =>
      by_cases hb : b = PKTTRANSFER_FRAME_DELIMITER_BYTE
      · exact Or.inr (Or.inl (by simp [pkttransfer_process_byte, hst, hb]))
      · exact Or.inl (by simp [pkttransfer_process_byte, hst, hb])
  | Byte =>
      by_cases hb1 : b = PKTTRANSFER_FRAME_ESCAPE_BYTE
      · exact Or.inr (Or.inr (Or.inl (by simp [pkttransfer_process_byte, hst, hb1])))
      · by_cases hb2 : b = PKTTRANSFER_FRAME_DELIMITER_BYTE
        · refine Or.inr (Or.inr (Or.inr (Or.inl ?_)))
          simp [pkttransfer_process_byte, hst, hb1, hb2,
            PKTTRANSFER_FRAME_DELIMITER_BYTE, PKTTRANSFER_FRAME_ESCAPE_BYTE]
        · by_cases hov : pmax ≤ s.rx_size
          · refine Or.inr (Or.inr (Or.inr (Or.inr (Or.inl ?_))))
            simp [pkttransfer_process_byte, hst, hb1, hb2, hov]
          · refine Or.inr (Or.inr (Or.inr (Or.inr (Or.inr (Or.inl
              ⟨?_, by omega⟩)))))
            simp [pkttransfer_process_byte, hst, hb1, hb2, hov]
  | EncodedByte =>
      by_cases hc : (b ≠ PKTTRANSFER_FRAME_ENCODED_DELIMITER_BYTE ∧
          b ≠ PKTTRANSFER_FRAME_ENCODED_ESCAPE_BYTE) ∨ pmax ≤ s.rx_size
      · refine Or.inr (Or.inr (Or.inr (Or.inr (Or.inl ?_))))
        simp [pkttransfer_process_byte, hst, hc]
      · refine Or.inr (Or.inr (Or.inr (Or.inr (Or.inr (Or.inr ?_)))))
        refine ⟨if b = PKTTRANSFER_FRAME_ENCODED_DELIMITER_BYTE then
          PKTTRANSFER_FRAME_DELIMITER_BYTE else PKTTRANSFER_FRAME_ESCAPE_BYTE, ?_, ?_⟩
        · simp [pkttransfer_process_byte, hst, hc]
        · push_neg at hc
          omega

lemma process_byte_inv {pmax : Nat} {s : PState} (h : DriverInv pmax s) (b : Nat) :
    DriverInv pmax (pkttransfer_process_byte pmax s b).1 := by
  obtain ⟨h1, h2, h3, h4⟩ := h
  rcases process_byte_cases pmax s b with
    hc | hc | hc | hc | hc | ⟨hc, hlt⟩ | ⟨b2, hc, hlt⟩ <;> rw [hc]
  · exact ⟨h1, h2, h3, h4⟩
  · exact ⟨h1, h2, h3, h4⟩
  · exact ⟨h1, h2, h3, h4⟩
  · rcases process_frame_cases s with hf | hf <;> rw [hf]
    · exact ⟨h1, h2, h3, Nat.zero_le pmax⟩
    · exact ⟨h1, h2, h3, Nat.zero_le pmax⟩
  · exact ⟨h1, h2, h3, Nat.zero_le pmax⟩
  · exact ⟨h1, h2, h3, show s.rx_size + 1 ≤ pmax by omega⟩
  · exact ⟨h1, h2, h3, show s.rx_size + 1 ≤ pmax by omega⟩

-- buf_rx preservation

lemma process_byte_bufrx (pmax : Nat) (s : PState) (b : Nat) :
    ∀ x, (x ≠ s.rx_size ∨ pmax ≤ x) →
      (pkttransfer_process_byte pmax s b).1.buf_rx x = s.buf_rx x := by
  intro x hx
  rcases process_byte_cases pmax s b with
    hc | hc | hc | hc | hc | ⟨hc, hlt⟩ | ⟨b2, hc, hlt⟩
  · rw [hc]
  · rw [hc]
  · rw [hc]
  · rw [hc]
    show (pkttransfer_process_frame s).1.buf_rx x = s.buf_rx x
    rcases process_frame_cases s with hf | hf <;> rw [hf]
  · rw [hc]
  · rw [hc]
    exact Function.update_noteq (by rcases hx with hx | hx <;> omega) _ _
  · rw [hc]
    exact Function.update_noteq (by rcases hx with hx | hx <;> omega) _ _

lemma prepare_byte_buf (s : PState) :
    (pkttransfer_prepare_byte s).1.buf_rx = s.buf_rx ∧
    (pkttransfer_prepare_byte s).1.buf_tx = s.buf_tx := by
  rcases prepare_byte_cases s with hc | ⟨hc, _⟩ | ⟨hc, _⟩ | ⟨hc, _⟩ | ⟨hc, _⟩ <;>
    rw [hc] <;> exact ⟨rfl, rfl⟩

lemma send_uart_bufrx (pmax : Nat) (s : PState) (p : List Nat) :
    (pkttransfer_send_uart pmax s p).1.buf_rx = s.buf_rx := by
  unfold pkttransfer_send_uart
  split
  · rfl
  · split
    · rfl
    · rfl

lemma send_can_bufrx (pmax : Nat) (s : PState) (p : List Nat) (id : Nat) :
    (pkttransfer_send pmax s p id).1.buf_rx = s.buf_rx := by
  unfold pkttransfer_send
  split
  · rfl
  · split
    · rfl
    · rfl

lemma send_uart_inv {pmax : Nat} {s : PState} (h : DriverInv pmax s) (p : List Nat) :
    DriverInv pmax (pkttransfer_send_uart pmax s p).1 := by
  obtain ⟨h1, h2, h3, h4⟩ := h
  by_cases hl : pmax < p.length
  · have he : (pkttransfer_send_uart pmax s p).1 = s := by
      simp [pkttransfer_send_uart, hl]
    rw [he]
    exact ⟨h1, h2, h3, h4⟩
  · by_cases ht : s.tx_size = 0
    · have he : (pkttransfer_send_uart pmax s p).1 =
          { s with
            buf_tx := Function.update
              (Function.update (writeList s.buf_tx 0 p) p.length
                (pkttransfer_crc16 p &&& 0xFF))
              (p.length + 1) ((pkttransfer_crc16 p >>> 8) % 256),
            tx_size := p.length + PKTTRANSFER_FRAME_CRC_SIZE,
            sent_size := 0 } := by
        simp [pkttransfer_send_uart, hl, ht]
      rw [he]
      refine ⟨Nat.zero_le _, ?_, ?_, h4⟩
      · show p.length + PKTTRANSFER_FRAME_CRC_SIZE ≤ pmax + 2
        simp only [PKTTRANSFER_FRAME_CRC_SIZE]
        omega
      · intro hz
        exact absurd (show p.length + PKTTRANSFER_FRAME_CRC_SIZE = 0 from hz)
          (by simp only [PKTTRANSFER_FRAME_CRC_SIZE]; omega)
    · have he : (pkttransfer_send_uart pmax s p).1 = s := by
        simp [pkttransfer_send_uart, hl, ht]
      rw [he]
      exact ⟨h1, h2, h3, h4⟩

lemma send_can_inv {pmax : Nat} {s : PState} (h : DriverInv pmax s)
    (p : List Nat) (id : Nat) :
    DriverInv pmax (pkttransfer_send pmax s p id).1 := by
  obtain ⟨h1, h2, h3, h4⟩ := h
  by_cases hl : pmax < p.length
  · have he : (pkttransfer_send pmax s p id).1 = s := by
      simp [pkttransfer_send, hl]
    rw [he]
    exact ⟨h1, h2, h3, h4⟩
  · by_cases ht : s.tx_size = 0
    · have he : (pkttransfer_send pmax s p id).1 =
          { s with
            buf_tx := Function.update
              (Function.update (writeList s.buf_tx 0 p) p.length
                (pkttransfer_crc16 p &&& 0xFF))
              (p.length + 1) ((pkttransfer_crc16 p >>> 8) % 256),
            tx_size := p.length + PKTTRANSFER_FRAME_CRC_SIZE,
            sent_size := 0,
            can_id_tx := id } := by
        simp [pkttransfer_send, hl, ht]
      rw [he]
      refine ⟨Nat.zero_le _, ?_, ?_, h4⟩
      · show p.length + PKTTRANSFER_FRAME_CRC_SIZE ≤ pmax + 2
        simp only [PKTTRANSFER_FRAME_CRC_SIZE]
        omega
      · intro hz
        exact absurd (show p.length + PKTTRANSFER_FRAME_CRC_SIZE = 0 from hz)
          (by simp only [PKTTRANSFER_FRAME_CRC_SIZE]; omega)
    · have he : (pkttransfer_send pmax s p id).1 = s := by
        simp [pkttransfer_send, hl, ht]
      rw [he]
      exact ⟨h1, h2, h3, h4⟩

-- fold lemmas

lemma canDrain_fst (f : Nat) (s : PState) :
    (canDrain (f + 1) s).1 =
      if pkttransfer_bytes_for_sending (pkttransfer_prepare_byte s).1 = true then
        (canDrain f (pkttransfer_prepare_byte s).1).1
      else (pkttransfer_prepare_byte s).1 := by
  by_cases hb : pkttransfer_bytes_for_sending (pkttransfer_prepare_byte s).1 = true <;>
    simp [canDrain, hb]

lemma canDrain_inv {pmax : Nat} (f : Nat) {s : PState} (h : DriverInv pmax s) :
    DriverInv pmax (canDrain f s).1 := by
  induction f generalizing s with
  | zero => exact h
  | succ f ih =>
      rw [canDrain_fst]
      split
      · exact ih (prepare_byte_inv h)
      · exact prepare_byte_inv h

lemma canDrain_bufrx (f : Nat) (s : PState) :
    (canDrain f s).1.buf_rx = s.buf_rx := by
  induction f generalizing s with
  | zero => rfl
  | succ f ih =>
      rw [canDrain_fst]
      split
      · rw [ih, (prepare_byte_buf s).1]
      · exact (prepare_byte_buf s).1

lemma decodeRun_fst (pmax : Nat) (s : PState) (b : Nat) (bs : List Nat) :
    (decodeRun pmax s (b :: bs)).1 =
      (decodeRun pmax (pkttransfer_process_byte pmax s b).1 bs).1 := by
  simp [decodeRun]

lemma decodeRun_inv {pmax : Nat} (l : List Nat) {s : PState} (h : DriverInv pmax s) :
    DriverInv pmax (decodeRun pmax s l).1 := by
  induction l generalizing s with
  | nil => exact h
  | cons b bs ih =>
      rw [decodeRun_fst]
      exact ih (process_byte_inv h b)

lemma decodeRun_bufrx_high {pmax : Nat} (l : List Nat) {s : PState} :
    ∀ x, pmax ≤ x → (decodeRun pmax s l).1.buf_rx x = s.buf_rx x := by
  induction l generalizing s with
  | nil => intro x _; rfl
  | cons b bs ih =>
      intro x hx
      rw [decodeRun_fst, ih _ hx, process_byte_bufrx pmax s b x (Or.inr hx)]

-- task lemmas

lemma task_uart_fst (pmax : Nat) (s : PState) (ta rr : Bool) (rb : Nat) :
    (pkttransfer_task_uart pmax s ta rr rb).1 =
      (if rr = true then
        (pkttransfer_process_byte pmax
          (if pkttransfer_bytes_for_sending s = true then
             if ta = true then (pkttransfer_prepare_byte s).1 else s
           else s) rb).1
       else
        (if pkttransfer_bytes_for_sending s = true then
           if ta = true then (pkttransfer_prepare_byte s).1 else s
         else s)) := by
  by_cases h1 : pkttransfer_bytes_for_sending s = true <;> by_cases h2 : ta = true <;>
    by_cases h3 : rr = true <;> simp [pkttransfer_task_uart, h1, h2, h3]

lemma task_uart_inv {pmax : Nat} {s : PState} (h : DriverInv pmax s)
    (ta rr : Bool) (rb : Nat) :
    DriverInv pmax (pkttransfer_task_uart pmax s ta rr rb).1 := by
  rw [task_uart_fst]
  split
  · split
    · split
      · exact process_byte_inv (prepare_byte_inv h) rb
      · exact process_byte_inv h rb
    · exact process_byte_inv h rb
  · split
    · split
      · exact prepare_byte_inv h
      · exact h
    · exact h

lemma task_uart_bufrx_high {pmax : Nat} (s : PState) (ta rr : Bool) (rb : Nat) :
    ∀ x, pmax ≤ x →
      (pkttransfer_task_uart pmax s ta rr rb).1.buf_rx x = s.buf_rx x := by
  intro x hx
  rw [task_uart_fst]
  split
  · split
    · split
      · rw [process_byte_bufrx _ _ _ x (Or.inr hx), (prepare_byte_buf s).1]
      · exact process_byte_bufrx _ _ _ x (Or.inr hx)
    · exact process_byte_bufrx _ _ _ x (Or.inr hx)
  · split
    · split
      · exact congrFun (prepare_byte_buf s).1 x
      · rfl
    · rfl

lemma task_can_fst (pmax : Nat) (s : PState) (ta rr : Bool) (oracle : Nat → List Nat) :
    (pkttransfer_task_can pmax s ta rr oracle).1 =
      (if rr = true then
        (decodeRun pmax
          (if pkttransfer_bytes_for_sending s = true then
             if ta = true then (canDrain PKTTRANSFER_CAN_MGS_SIZE s).1 else s
           else s)
          (oracle
            (if pkttransfer_bytes_for_sending s = true then
               if ta = true then (canDrain PKTTRANSFER_CAN_MGS_SIZE s).1 else s
             else s).can_id_rx)).1
       else
        (if pkttransfer_bytes_for_sending s = true then
           if ta = true then (canDrain PKTTRANSFER_CAN_MGS_SIZE s).1 else s
         else s)) := by
  by_cases h1 : pkttransfer_bytes_for_sending s = true <;> by_cases h2 : ta = true <;>
    by_cases h3 : rr = true <;> simp [pkttransfer_task_can, h1, h2, h3]

lemma task_can_inv {pmax : Nat} {s : PState} (h : DriverInv pmax s)
    (ta rr : Bool) (oracle : Nat → List Nat) :
    DriverInv pmax (pkttransfer_task_can pmax s ta rr oracle).1 := by
  rw [task_can_fst]
  have h1 : DriverInv pmax (if pkttransfer_bytes_for_sending s = true then
      if ta = true then (canDrain PKTTRANSFER_CAN_MGS_SIZE s).1 else s else s) := by
    split
    · split
      · exact canDrain_inv _ h
      · exact h
    · exact h
  split
  · exact decodeRun_inv _ h1
  · exact h1

lemma task_can_bufrx_high {pmax : Nat} (s : PState) (ta rr : Bool)
    (oracle : Nat → List Nat) :
    ∀ x, pmax ≤ x →
      (pkttransfer_task_can pmax s ta rr oracle).1.buf_rx x = s.buf_rx x := by
  intro x hx
  rw [task_can_fst]
  have h1 : (if pkttransfer_bytes_for_sending s = true then
      if ta = true then (canDrain PKTTRANSFER_CAN_MGS_SIZE s).1 else s
      else s).buf_rx x = s.buf_rx x := by
    split
    · split
      · exact congrFun (canDrain_bufrx _ s) x
      · rfl
    · rfl
  split
  · rw [decodeRun_bufrx_high _ _ hx, h1]
  · exact h1

-- reachability consequences

lemma reach_inv {pmax : Nat} {s0 s : PState} (hr : Reach pmax s0 s)
    (h0 : DriverInv pmax s0) : DriverInv pmax s := by
  induction hr with
  | refl => exact h0
  | send_uart s p hr ih => exact send_uart_inv ih p
  | send_can s p id hr ih => exact send_can_inv ih p id
  | set_id s id hr ih => exact ⟨ih.1, ih.2.1, ih.2.2.1, ih.2.2.2⟩
  | task_uart s ta rr b hr ih => exact task_uart_inv ih ta rr b
  | task_can s ta rr oracle hr ih => exact task_can_inv ih ta rr oracle

lemma reach_bufrx_high {pmax : Nat} {s0 s : PState} (hr : Reach pmax s0 s) :
    ∀ x, pmax ≤ x → s.buf_rx x = s0.buf_rx x := by
  induction hr with
  | refl => intro x _; rfl
  | send_uart s p hr ih =>
      intro x hx
      rw [congrFun (send_uart_bufrx pmax s p) x]
      exact ih x hx
  | send_can s p id hr ih =>
      intro x hx
      rw [congrFun (send_can_bufrx pmax s p id) x]
      exact ih x hx
  | set_id s id hr ih => exact ih
  | task_uart s ta rr b hr ih =>
      intro x hx
      rw [task_uart_bufrx_high s ta rr b x hx]
      exact ih x hx
  | task_can s ta rr oracle hr ih =>
      intro x hx
      rw [task_can_bufrx_high s ta rr oracle x hx]
      exact ih x hx

lemma init_inv (pmax : Nat) (btx brx : Nat → Nat) :
    DriverInv pmax (pkttransfer_init btx brx) :=
  ⟨Nat.le_refl 0, Nat.zero_le _, fun _ => rfl, Nat.zero_le pmax⟩

lemma process_byte_delivery {pmax : Nat} {s : PState} {b : Nat} {pl : List Nat}
    (hdel : (pkttransfer_process_byte pmax s b).2 = some pl) :
    2 < s.rx_size ∧ pl = readBuf s.buf_rx (s.rx_size - 2) ∧
    (((s.buf_rx (s.rx_size - 1)) <<< 8) ||| (s.buf_rx (s.rx_size - 2))) % 65536 =
      pkttransfer_crc16 (readBuf s.buf_rx (s.rx_size - 2)) := by
  unfold pkttransfer_process_byte at hdel
  cases hst : s.rx_state with
  | Delimiter =>
      rw [hst] at hdel
      by_cases hb : b = PKTTRANSFER_FRAME_DELIMITER_BYTE <;> simp [hb] at hdel
  | EncodedByte =>
      rw [hst] at hdel
      by_cases hc : (b ≠ PKTTRANSFER_FRAME_ENCODED_DELIMITER_BYTE ∧
          b ≠ PKTTRANSFER_FRAME_ENCODED_ESCAPE_BYTE) ∨ pmax ≤ s.rx_size <;>
        simp [hc] at hdel
  | Byte =>
      rw [hst] at hdel
      by_cases hb1 : b = PKTTRANSFER_FRAME_ESCAPE_BYTE
      · simp [hb1] at hdel
      · by_cases hb2 : b = PKTTRANSFER_FRAME_DELIMITER_BYTE
        · simp [hb1, hb2, PKTTRANSFER_FRAME_DELIMITER_BYTE,
            PKTTRANSFER_FRAME_ESCAPE_BYTE] at hdel
          unfold pkttransfer_process_frame at hdel
          simp only [PKTTRANSFER_FRAME_CRC_SIZE] at hdel
          by_cases h1 : s.rx_size ≤ 2
          · simp [h1] at hdel
          · by_cases h2 : (((s.buf_rx (s.rx_size - 1)) <<< 8) |||
                (s.buf_rx (s.rx_size - 2))) % 65536 ≠
                pkttransfer_crc16 (readBuf s.buf_rx (s.rx_size - 2))
            · simp [h1, h2] at hdel
            · push_neg at h2
              simp [h1, h2] at hdel
              exact ⟨by omega, hdel.symm, h2⟩
        · by_cases hov : pmax ≤ s.rx_size <;> simp [hb1, hb2, hov] at hdel

lemma reach_init_inv {pmax : Nat} {btx brx : Nat → Nat} {s : PState}
    (h : Reach pmax (pkttransfer_init btx brx) s) : DriverInv pmax s :=
  reach_inv h (init_inv pmax btx brx)

/-- C6: TX state invariant. -/
theorem pkttransfer_tx_state_invariant (pmax : Nat) (btx brx : Nat → Nat) (s : PState)
    (h : Reach pmax (pkttransfer_init btx brx) s) :
    s.sent_size ≤ s.tx_size ∧ s.tx_size ≤ pmax + 2 ∧
    (s.tx_size = 0 → s.tx_state = FrameState.Delimiter) :=
  ⟨(reach_init_inv h).1, (reach_init_inv h).2.1, (reach_init_inv h).2.2.1⟩

/-- witness for C6 -/
theorem pkttransfer_tx_state_invariant_witness :
    canScn_sent.1.sent_size ≤ canScn_sent.1.tx_size ∧
    canScn_sent.1.tx_size ≤ 512 + 2 ∧
    (canScn_sent.1.tx_size = 0 → canScn_sent.1.tx_state = FrameState.Delimiter) :=
  pkttransfer_tx_state_invariant 512 canScn_zero canScn_zero canScn_sent.1
    (Reach.send_can _ _ _ _ (Reach.set_id _ _ _ (Reach.refl _)))

/-- C8: implicit RX write bound. -/
theorem pkttransfer_rx_write_bound (pmax : Nat) (btx brx : Nat → Nat) (s : PState)
    (h : Reach pmax (pkttransfer_init btx brx) s) :
    s.rx_size ≤ pmax ∧
    (∀ b x, x ≠ s.rx_size →
      (pkttransfer_process_byte pmax s b).1.buf_rx x = s.buf_rx x) ∧
    (∀ b x, pmax ≤ x →
      (pkttransfer_process_byte pmax s b).1.buf_rx x = s.buf_rx x) ∧
    (∀ x, pmax ≤ x → s.buf_rx x = brx x) :=
  ⟨(reach_init_inv h).2.2.2,
   fun b x hx => process_byte_bufrx pmax s b x (Or.inl hx),
   fun b x hx => process_byte_bufrx pmax s b x (Or.inr hx),
   fun x hx => reach_bufrx_high h x hx⟩

/-- witness for C8 -/
theorem pkttransfer_rx_write_bound_witness :
    canScn_sent.1.rx_size ≤ 512 ∧ canScn_sent.1.buf_rx 512 = canScn_zero 512 :=
  ⟨(pkttransfer_rx_write_bound 512 canScn_zero canScn_zero canScn_sent.1
      (Reach.send_can _ _ _ _ (Reach.set_id _ _ _ (Reach.refl _)))).1,
   (pkttransfer_rx_write_bound 512 canScn_zero canScn_zero canScn_sent.1
      (Reach.send_can _ _ _ _ (Reach.set_id _ _ _ (Reach.refl _)))).2.2.2 512
      (Nat.le_refl 512)⟩

/-- C9: implicit callback size bound. -/
theorem pkttransfer_callback_size_bound (pmax : Nat) (btx brx : Nat → Nat)
    (st : PState) (b : Nat) (pl : List Nat)
    (hre : Reach pmax (pkttransfer_init btx brx) st)
    (hdel : (pkttransfer_process_byte pmax st b).2 = some pl) :
    1 ≤ pl.length ∧ pl.length + 2 ≤ pmax ∧ pl.length ≤ pmax - 2 ∧
    pl.length = st.rx_size - 2 ∧
    pl = readBuf st.buf_rx pl.length ∧
    (((st.buf_rx (st.rx_size - 1)) <<< 8) ||| (st.buf_rx (st.rx_size - 2))) % 65536 =
      pkttransfer_crc16 pl := by
  obtain ⟨hgt, hpl, hcrc⟩ := process_byte_delivery hdel
  have hrx : st.rx_size ≤ pmax := (reach_init_inv hre).2.2.2
  have hlen : pl.length = st.rx_size - 2 := by
    rw [hpl]
    simp [readBuf]
  refine ⟨by omega, by omega, by omega, hlen, ?_, ?_⟩
  · rw [hlen]
    exact hpl
  · rw [hpl]
    exact hcrc

/-- witness for C9 -/
theorem pkttransfer_callback_size_bound_witness :
    1 ≤ ([0x31] : List Nat).length ∧ ([0x31] : List Nat).length + 2 ≤ 3 ∧
    ([0x31] : List Nat).length = rxScn_st.rx_size - 2 :=
  ⟨(pkttransfer_callback_size_bound 3 canScn_zero canScn_zero rxScn_st 0x7E [0x31]
      (Reach.task_uart _ _ _ _ _ (Reach.task_uart _ _ _ _ _ (Reach.task_uart _ _ _ _ _
        (Reach.task_uart _ _ _ _ _ (Reach.refl _))))) (by decide)).1,
   (pkttransfer_callback_size_bound 3 canScn_zero canScn_zero rxScn_st 0x7E [0x31]
      (Reach.task_uart _ _ _ _ _ (Reach.task_uart _ _ _ _ _ (Reach.task_uart _ _ _ _ _
        (Reach.task_uart _ _ _ _ _ (Reach.refl _))))) (by decide)).2.1,
   (pkttransfer_callback_size_bound 3 canScn_zero canScn_zero rxScn_st 0x7E [0x31]
      (Reach.task_uart _ _ _ _ _ (Reach.task_uart _ _ _ _ _ (Reach.task_uart _ _ _ _ _
        (Reach.task_uart _ _ _ _ _ (Reach.refl _))))) (by decide)).2.2.2.1⟩
